import Mathlib

/-!
# Verification of `lmcloud`'s `client_bluetooth.py`

Shallow embedding of `src/lmcloud/client_bluetooth.py`, the Bluetooth client
for La Marzocco espresso machines, together with theorems settling the frozen
claims about it.

Modelling conventions:
* Byte strings (`bytes`) are `List Nat` with every element `< 256`.
* Python `str.encode("utf-8")` is modelled by `utf8` below.
* The BLE transport (bleak's `BleakClient`) is external; its behaviour is a
  parameter `Env` giving the outcome of `connect()` and of each
  `write_gatt_char` call.  The stored client handle is modelled by its
  observable `is_connected` flag.
* Each operation returns a `StepResult`: the post-state of the session object,
  the exception raised (if any), and the trace of transport calls performed.
-/

namespace LMBT

/-- UTF-8 encoding of a single code point, as byte values. -/
def utf8Char (c : Char) : List Nat :=
  let n := c.toNat
  if n < 128 then [n]
  else if n < 2048 then [192 + n / 64, 128 + n % 64]
  else if n < 65536 then [224 + n / 4096, 128 + n / 64 % 64, 128 + n % 64]
  else [240 + n / 262144, 128 + n / 4096 % 64, 128 + n / 64 % 64, 128 + n % 64]

/-- Model of Python `s.encode("utf-8")`: the UTF-8 bytes of a string. -/
def utf8 (s : String) : List Nat :=
  s.data.flatMap utf8Char

/-- The base64 alphabet (RFC 4648), as ASCII byte values. -/
def b64Alphabet : List Nat :=
  utf8 "ABCDEFGHIJKLMNOPQRSTUVWXYZabcdefghijklmnopqrstuvwxyz0123456789+/"

/-- The base64 digit for a 6-bit value. -/
def b64Char (n : Nat) : Nat :=
  b64Alphabet.getD n 65

/-- Model of Python `base64.b64encode`: standard base64 with `=` padding
(61 is the ASCII code of `=`). -/
def b64encode : List Nat → List Nat
  | a :: b :: c :: rest =>
    let n := a * 65536 + b * 256 + c
    b64Char (n / 262144 % 64) :: b64Char (n / 4096 % 64) ::
      b64Char (n / 64 % 64) :: b64Char (n % 64) :: b64encode rest
  | [a, b] =>
    let n := a * 65536 + b * 256
    [b64Char (n / 262144 % 64), b64Char (n / 4096 % 64), b64Char (n / 64 % 64), 61]
  | [a] =>
    let n := a * 65536
    [b64Char (n / 262144 % 64), b64Char (n / 4096 % 64), 61, 61]
  | [] => []

/-- A lowercase hexadecimal digit. -/
def hexChar (n : Nat) : Char :=
  if n < 10 then Char.ofNat (48 + n) else Char.ofNat (87 + n)

/-- Four lowercase hex digits, as used by Python's `\uXXXX` escapes. -/
def hex4 (n : Nat) : String :=
  String.mk [hexChar (n / 4096 % 16), hexChar (n / 256 % 16), hexChar (n / 16 % 16),
    hexChar (n % 16)]

/-- Escaping of one character inside a JSON string literal, following
`json.dumps` with its default `ensure_ascii=True`. -/
def jsonEscapeChar (c : Char) : String :=
  if c = '"' then "\\\""
  else if c = '\\' then "\\\\"
  else if c = '\n' then "\\n"
  else if c = '\r' then "\\r"
  else if c = '\t' then "\\t"
  else if c.toNat = 8 then "\\b"
  else if c.toNat = 12 then "\\f"
  else if c.toNat < 32 then "\\u" ++ hex4 c.toNat
  else if c.toNat < 127 then String.singleton c
  else if c.toNat < 65536 then "\\u" ++ hex4 c.toNat
  else
    let n := c.toNat - 65536
    "\\u" ++ hex4 (55296 + n / 1024) ++ "\\u" ++ hex4 (56320 + n % 1024)

/-- A JSON string literal for `json.dumps`. -/
def jsonStr (s : String) : String :=
  "\"" ++ String.join (s.data.map jsonEscapeChar) ++ "\""

/-- A scalar JSON value as used in the command dictionaries of the client. -/
inductive JsonScalar where
  | s (v : String)
  | b (v : Bool)
  | i (v : Int)
  deriving DecidableEq

/-- Serialization of a scalar, following `json.dumps`. -/
def dumpScalar : JsonScalar → String
  | JsonScalar.s v => jsonStr v
  | JsonScalar.b true => "true"
  | JsonScalar.b false => "false"
  | JsonScalar.i n => toString n

/-- The command dictionaries built by `set_power` / `set_steam` / `set_temp`:
a Python dict with insertion-ordered keys `"name"` and `"parameter"`, the
latter a dict of scalar fields (spec §3: "a named operation with a structured
parameter set ... serialized to a compact JSON object with keys `name` and
`parameter`"). -/
structure Command where
  name : String
  parameter : List (String × JsonScalar)
  deriving DecidableEq

/-- Model of `json.dumps(data, separators=(",", ":"))` on a command dict.
Python 3.7+ dicts preserve insertion order, so the key order is fixed. -/
def dumps (c : Command) : String :=
  "\x7b" ++ jsonStr "name" ++ ":" ++ jsonStr c.name ++ "," ++ jsonStr "parameter" ++ ":" ++
    "\x7b" ++
    String.intercalate "," (c.parameter.map (fun kv => jsonStr kv.1 ++ ":" ++ dumpScalar kv.2)) ++
    "\x7d\x7d"

/-- Modelled from the spec: `SETTINGS_CHARACTERISTIC`, imported by the source
from the missing `.const` module; spec §6 describes it as one of "two fixed
protocol endpoints", an opaque ID "supplied by the surrounding configuration". -/
def SETTINGS_CHARACTERISTIC : String := "settings-characteristic"

/-- Modelled from the spec: `AUTH_CHARACTERISTIC`, imported by the source from
the missing `.const` module; the other of the two fixed, distinct protocol
endpoint IDs of spec §6. -/
def AUTH_CHARACTERISTIC : String := "auth-characteristic"

/-- A BLE advertiser as seen in a scan result (bleak's `BLEDevice`): an
optional advertised name and an address. -/
structure BLEDevice where
  name : Option String
  address : String
  deriving DecidableEq

/-- The observable state of a stored `BleakClient` handle: whether the
transport link is currently up (`is_connected`). -/
structure BleakClientState where
  is_connected : Bool
  deriving DecidableEq

/-- The session object `LaMarzoccoBluetoothClient`: credentials, the optional
address and the optional transport handle. -/
structure LaMarzoccoBluetoothClient where
  username : String
  serial_number : String
  token : String
  address : Option String
  client : Option BleakClientState
  deriving DecidableEq

/-- The transport-level errors the source catches: bleak's `BleakError` and
`TimeoutError`. -/
inductive TransportError where
  | bleakError
  | timeoutError
  deriving DecidableEq

/-- The errors an operation can surface: the library's own exceptions
(`ClientNotInitialized`, `BluetoothDeviceNotFound`, `BluetoothConnectionFailed`
wrapping its cause) and a transport error propagating uncaught out of
`write_gatt_char` (line 168 is outside the `try` block). -/
inductive LMError where
  | notInitialized
  | deviceNotFound
  | connectionFailed (cause : TransportError)
  | transportRaise (cause : TransportError)
  deriving DecidableEq

/-- The behaviour of the external BLE transport: the outcome of `connect()`
and of each `write_gatt_char(characteristic, bytes)` call (`none` = success). -/
structure Env where
  connectErr : Option TransportError
  writeErr : String → List Nat → Option TransportError

/-- A transport call performed by the client, in order. -/
inductive Ev where
  | connect
  | write (characteristic : String) (message : List Nat)
  deriving DecidableEq

/-- Result of running one operation: the post-state of the session, the
exception raised (if any), and the trace of transport calls. -/
structure StepResult where
  session : LaMarzoccoBluetoothClient
  error : Option LMError
  trace : List Ev

/-- The `message: bytes | str` parameter of `_write_bluetooth_message`. -/
inductive Msg where
  | bytes (b : List Nat)
  | str (s : String)
  deriving DecidableEq

/-- Lines 158-160: `if not isinstance(message, bytes): message = bytes(message, "utf-8")`. -/
def encode_msg : Msg → List Nat
  | Msg.bytes b => b
  | Msg.str s => utf8 s

/-- Lines 158-164 of `_write_bluetooth_message`: encode a `str` payload as
UTF-8 and append one trailing zero byte exactly when the target is the
settings characteristic. -/
def framed_message (characteristic : String) (m : Msg) : List Nat :=
  if characteristic = SETTINGS_CHARACTERISTIC then encode_msg m ++ [0] else encode_msg m

/-- Lines 183-186 of `_authenticate`: the authentication payload
`base64(username:serial_number) + "@" + base64(token)` (64 is ASCII `@`). -/
def auth_string (s : LaMarzoccoBluetoothClient) : List Nat :=
  b64encode (utf8 (s.username ++ ":" ++ s.serial_number)) ++ [64] ++ b64encode (utf8 s.token)

/-- The framed bytes `_authenticate` hands to `write_gatt_char` on the
authentication characteristic. -/
def auth_bytes (s : LaMarzoccoBluetoothClient) : List Nat :=
  framed_message AUTH_CHARACTERISTIC (Msg.bytes (auth_string s))

/-- Lines 142-168, `_write_bluetooth_message`.  If the stored client is absent,
raise `ClientNotInitialized`.  If it is not connected, `connect()` and then
`_authenticate()` inside a `try` that converts `BleakError`/`TimeoutError`
into `BluetoothConnectionFailed`; `_authenticate`'s recursive call to
`_write_bluetooth_message` is inlined here — at that point the client is
connected, so the inner connect-if-needed check is vacuous and the inner call
reduces to framing plus `write_gatt_char` on the auth characteristic (whose
failure propagates into the outer `try`).  Finally frame and write the payload;
a failure of this last write is outside the `try` and propagates uncaught. -/
def write_bluetooth_message (env : Env) (s : LaMarzoccoBluetoothClient)
    (characteristic : String) (message : Msg) : StepResult :=
  match s.client with
  | none => ⟨s, some LMError.notInitialized, []⟩
  | some c =>
    if c.is_connected then
      let b := framed_message characteristic message
      match env.writeErr characteristic b with
      | some e => ⟨s, some (LMError.transportRaise e), [Ev.write characteristic b]⟩
      | none => ⟨s, none, [Ev.write characteristic b]⟩
    else
      match env.connectErr with
      | some e => ⟨s, some (LMError.connectionFailed e), [Ev.connect]⟩
      | none =>
        let s1 := { s with client := some ⟨true⟩ }
        let ab := framed_message AUTH_CHARACTERISTIC (Msg.bytes (auth_string s1))
        match env.writeErr AUTH_CHARACTERISTIC ab with
        | some e =>
          ⟨s1, some (LMError.connectionFailed e), [Ev.connect, Ev.write AUTH_CHARACTERISTIC ab]⟩
        | none =>
          let b := framed_message characteristic message
          match env.writeErr characteristic b with
          | some e =>
            ⟨s1, some (LMError.transportRaise e),
              [Ev.connect, Ev.write AUTH_CHARACTERISTIC ab, Ev.write characteristic b]⟩
          | none =>
            ⟨s1, none, [Ev.connect, Ev.write AUTH_CHARACTERISTIC ab, Ev.write characteristic b]⟩

/-- Lines 170-179, `_write_bluetooth_json_message`: serialize with compact
separators and delegate.  The source's `characteristic` parameter defaults to
`SETTINGS_CHARACTERISTIC` and every caller leaves the default. -/
def write_bluetooth_json_message (env : Env) (s : LaMarzoccoBluetoothClient)
    (data : Command) : StepResult :=
  write_bluetooth_message env s SETTINGS_CHARACTERISTIC (Msg.str (dumps data))

/-- Lines 100-109, `set_power`. -/
def set_power (env : Env) (s : LaMarzoccoBluetoothClient) (state : Bool) : StepResult :=
  let mode := if state then "BrewingMode" else "StandBy"
  write_bluetooth_json_message env s ⟨"MachineChangeMode", [("mode", JsonScalar.s mode)]⟩

/-- Lines 111-120, `set_steam`. -/
def set_steam (env : Env) (s : LaMarzoccoBluetoothClient) (state : Bool) : StepResult :=
  write_bluetooth_json_message env s
    ⟨"SettingBoilerEnable", [("identifier", JsonScalar.s "SteamBoiler"), ("state", JsonScalar.b state)]⟩

/-- Lines 122-131, `set_temp`.  The boiler identifier is a member of the
`LaMarzoccoBoilerType` string-enum from the missing `.const` module; modelled
from the spec (§6: "supported boiler identifiers ... are externally supplied
lookup data") as an arbitrary string, which is also how `json.dumps`
serializes a `StrEnum` member. -/
def set_temp (env : Env) (s : LaMarzoccoBluetoothClient) (boiler : String)
    (temperature : Int) : StepResult :=
  write_bluetooth_json_message env s
    ⟨"SettingBoilerTarget", [("identifier", JsonScalar.s boiler), ("value", JsonScalar.i temperature)]⟩

/-- Python truthiness of `self._address` (`str | None`): `None` and the empty
string are falsy. -/
def py_truthy : Option String → Bool
  | none => false
  | some a => a != ""

/-- Model of Python `str.startswith`: a prefix test on the character
sequence. -/
def str_startswith (s pre : String) : Bool :=
  pre.data.isPrefixOf s.data

/-- The per-device condition of lines 138-139: `if d.name:` (truthy, so
non-`None` and non-empty) and `d.name.startswith(tuple(BT_MODEL_NAMES))`
(some prefix in the model-name list matches). -/
def matches_model_name (model_names : List String) (d : BLEDevice) : Bool :=
  match d.name with
  | none => false
  | some n => n != "" && model_names.any (fun p => str_startswith n p)

/-- Lines 133-140, `_discover_device`: for every scanned device, in scan
order, assign `self._address` when the name matches; there is no `break`, so
each match overwrites the previous one.  `BT_MODEL_NAMES` comes from the
missing `.const` module and is modelled from the spec (§4.1: "a known set of
supported model-name prefixes") as the parameter `model_names`. -/
def discover_device (model_names : List String) (devices : List BLEDevice)
    (s : LaMarzoccoBluetoothClient) : LaMarzoccoBluetoothClient :=
  devices.foldl
    (fun acc d =>
      if matches_model_name model_names d then { acc with address := some d.address } else acc)
    s

/-- Lines 30-46, `__init__`: store the credentials; when a `BLEDevice` is
given (a Python object, always truthy), also store its address and a fresh,
not-yet-connected `BleakClient` built on it. -/
def mk_client (username serial_number token : String) (ble_device : Option BLEDevice) :
    LaMarzoccoBluetoothClient :=
  match ble_device with
  | none => ⟨username, serial_number, token, none, none⟩
  | some d => ⟨username, serial_number, token, some d.address, some ⟨false⟩⟩

/-- Lines 48-71, `create`: construct without a device, scan, discover; raise
`BluetoothDeviceNotFound` when `self._address` is still falsy, else optionally
build a (not yet connected) client on the address. -/
def create (model_names : List String) (username serial_number token : String)
    (init_client : Bool) (devices : List BLEDevice) :
    Except LMError LaMarzoccoBluetoothClient :=
  let s := mk_client username serial_number token none
  let s := discover_device model_names devices s
  if !(py_truthy s.address) then Except.error LMError.deviceNotFound
  else if init_client then Except.ok { s with client := some ⟨false⟩ }
  else Except.ok s

/-- Lines 73-78, the `address` property: raise `ClientNotInitialized` when no
address was ever supplied. -/
def address_of (s : LaMarzoccoBluetoothClient) : Except LMError String :=
  match s.address with
  | none => Except.error LMError.notInitialized
  | some a => Except.ok a

/-- Lines 80-85, the `connected` property: `false` without a client handle,
else the transport's live `is_connected`. -/
def connected (s : LaMarzoccoBluetoothClient) : Bool :=
  match s.client with
  | none => false
  | some c => c.is_connected

/-- Lines 87-98, `new_client_from_ble_device`: replace the stored client with
a fresh one built on the given device, then `connect()` and `_authenticate()`
inside the same `try`/`except` as in `_write_bluetooth_message` (the inlined
`_authenticate` is again a write on an already-connected client). -/
def new_client_from_ble_device (env : Env) (s : LaMarzoccoBluetoothClient)
    (_d : BLEDevice) : StepResult :=
  let s0 := { s with client := some (⟨false⟩ : BleakClientState) }
  match env.connectErr with
  | some e => ⟨s0, some (LMError.connectionFailed e), [Ev.connect]⟩
  | none =>
    let s1 := { s0 with client := some ⟨true⟩ }
    let ab := framed_message AUTH_CHARACTERISTIC (Msg.bytes (auth_string s1))
    match env.writeErr AUTH_CHARACTERISTIC ab with
    | some e =>
      ⟨s1, some (LMError.connectionFailed e), [Ev.connect, Ev.write AUTH_CHARACTERISTIC ab]⟩
    | none => ⟨s1, none, [Ev.connect, Ev.write AUTH_CHARACTERISTIC ab]⟩

/-- The three public command writes, for claims quantifying over "every
command". -/
inductive UserCommand where
  | power (state : Bool)
  | steam (state : Bool)
  | temp (boiler : String) (temperature : Int)
  deriving DecidableEq

/-- Dispatch a public command to the corresponding setter. -/
def run_command (env : Env) (s : LaMarzoccoBluetoothClient) : UserCommand → StepResult
  | UserCommand.power b => set_power env s b
  | UserCommand.steam b => set_steam env s b
  | UserCommand.temp bo t => set_temp env s bo t

/-- The command dictionary each setter builds. -/
def command_of : UserCommand → Command
  | UserCommand.power b =>
    ⟨"MachineChangeMode", [("mode", JsonScalar.s (if b then "BrewingMode" else "StandBy"))]⟩
  | UserCommand.steam b =>
    ⟨"SettingBoilerEnable", [("identifier", JsonScalar.s "SteamBoiler"), ("state", JsonScalar.b b)]⟩
  | UserCommand.temp bo t =>
    ⟨"SettingBoilerTarget", [("identifier", JsonScalar.s bo), ("value", JsonScalar.i t)]⟩

/-- The framed bytes a command write hands to `write_gatt_char` on the
settings characteristic. -/
def command_bytes (cmd : UserCommand) : List Nat :=
  framed_message SETTINGS_CHARACTERISTIC (Msg.str (dumps (command_of cmd)))

/-- Whether a trace contains a write to the settings characteristic. -/
def has_settings_write (tr : List Ev) : Bool :=
  tr.any fun ev =>
    match ev with
    | Ev.write ch _ => ch == SETTINGS_CHARACTERISTIC
    | Ev.connect => false

/-! ## Helper lemmas and fixtures -/

/-- UTF-8 encoding distributes over string concatenation. -/
theorem utf8_append (a b : String) : utf8 (a ++ b) = utf8 a ++ utf8 b := by
  simp [utf8, String.data_append]

/-- The two characteristic IDs are distinct endpoints (spec §6). -/
theorem auth_ne_settings : AUTH_CHARACTERISTIC ≠ SETTINGS_CHARACTERISTIC := by
  decide

/-- An environment where every transport call succeeds. -/
def env_ok : Env := ⟨none, fun _ _ => none⟩

/-- A session built with credentials `"u"`, `"s"`, `"t"`, holding a client
handle that is not yet connected. -/
def client_disc : LaMarzoccoBluetoothClient := ⟨"u", "s", "t", none, some ⟨false⟩⟩

/-- A session built with credentials `"u"`, `"s"`, `"t"`, holding a connected
client handle. -/
def client_conn : LaMarzoccoBluetoothClient := ⟨"u", "s", "t", none, some ⟨true⟩⟩

/-- A session built with credentials `"u"`, `"s"`, `"t"` and neither an
address nor a client handle (constructed without a device, no discovery). -/
def client_bare : LaMarzoccoBluetoothClient := ⟨"u", "s", "t", none, none⟩

/-! ## Claims -/

/-- Claim C2: for every username `u`, serial number `s` and token `t`, the
bytes written to the authentication characteristic equal
`base64(u ++ ":" ++ s) ++ "@" ++ base64(t)` (58 = `:`, 64 = `@`), and the
trailing-zero framing rule appends nothing on the authentication
characteristic. -/
theorem C2_auth_payload (s : LaMarzoccoBluetoothClient) :
    auth_bytes s =
      b64encode (utf8 s.username ++ [58] ++ utf8 s.serial_number) ++ [64] ++
        b64encode (utf8 s.token) ∧
    auth_bytes s = auth_string s := by
  constructor
  · show framed_message _ _ = _
    rw [framed_message, if_neg auth_ne_settings]
    show auth_string s = _
    rw [auth_string, utf8_append, utf8_append]
    rfl
  · show framed_message _ _ = _
    rw [framed_message, if_neg auth_ne_settings]
    rfl

/-- Claim C3: on a connected session, `set_power true` performs exactly one
transport call, a write to the settings characteristic of the UTF-8 bytes of
`\x7b"name":"MachineChangeMode","parameter":\x7b"mode":"BrewingMode"\x7d\x7d`
followed by one trailing zero byte; `set_power false` the same with
`"StandBy"`. -/
theorem C3_set_power_payload (env : Env) (s : LaMarzoccoBluetoothClient) (state : Bool)
    (hc : connected s = true) :
    (set_power env s state).trace =
      [Ev.write SETTINGS_CHARACTERISTIC
        (utf8 (if state then
            "\x7b\"name\":\"MachineChangeMode\",\"parameter\":\x7b\"mode\":\"BrewingMode\"\x7d\x7d"
          else
            "\x7b\"name\":\"MachineChangeMode\",\"parameter\":\x7b\"mode\":\"StandBy\"\x7d\x7d")
          ++ [0])] := by
  match h : s.client with
  | none => rw [connected, h] at hc; exact absurd hc (by simp)
  | some c =>
    rw [connected, h] at hc
    have hb : (dumps (command_of (UserCommand.power state))) =
        (if state then
          "\x7b\"name\":\"MachineChangeMode\",\"parameter\":\x7b\"mode\":\"BrewingMode\"\x7d\x7d"
        else
          "\x7b\"name\":\"MachineChangeMode\",\"parameter\":\x7b\"mode\":\"StandBy\"\x7d\x7d") := by
      cases state <;> decide
    have hc' : c.is_connected = true := hc
    show (write_bluetooth_message env s SETTINGS_CHARACTERISTIC
        (Msg.str (dumps (command_of (UserCommand.power state))))).trace = _
    have hf : ∀ t : String,
        framed_message SETTINGS_CHARACTERISTIC (Msg.str t) = utf8 t ++ [0] := by
      intro t; rw [framed_message, if_pos rfl]; rfl
    rw [hb, write_bluetooth_message]
    simp only [h, hf]
    split
    · split <;> rfl
    · contradiction

/-- Witness for C3 at the connected fixture session and `state = true`. -/
theorem C3_witness :
    connected client_conn = true ∧
    (set_power env_ok client_conn true).trace =
      [Ev.write SETTINGS_CHARACTERISTIC
        (utf8 "\x7b\"name\":\"MachineChangeMode\",\"parameter\":\x7b\"mode\":\"BrewingMode\"\x7d\x7d"
          ++ [0])] :=
  ⟨rfl, C3_set_power_payload env_ok client_conn true rfl⟩

/-- Claim C7: on a connected session, `set_steam state` performs exactly one
transport call, a write to the settings characteristic of the UTF-8 bytes of
`\x7b"name":"SettingBoilerEnable","parameter":\x7b"identifier":"SteamBoiler","state":true\x7d\x7d`
(with `false` for `state = false`) followed by one trailing zero byte. -/
theorem C7_set_steam_payload (env : Env) (s : LaMarzoccoBluetoothClient) (state : Bool)
    (hc : connected s = true) :
    (set_steam env s state).trace =
      [Ev.write SETTINGS_CHARACTERISTIC
        (utf8 (if state then
            "\x7b\"name\":\"SettingBoilerEnable\",\"parameter\":\x7b\"identifier\":\"SteamBoiler\",\"state\":true\x7d\x7d"
          else
            "\x7b\"name\":\"SettingBoilerEnable\",\"parameter\":\x7b\"identifier\":\"SteamBoiler\",\"state\":false\x7d\x7d")
          ++ [0])] := by
  match h : s.client with
  | none => rw [connected, h] at hc; exact absurd hc (by simp)
  | some c =>
    rw [connected, h] at hc
    have hb : (dumps (command_of (UserCommand.steam state))) =
        (if state then
          "\x7b\"name\":\"SettingBoilerEnable\",\"parameter\":\x7b\"identifier\":\"SteamBoiler\",\"state\":true\x7d\x7d"
        else
          "\x7b\"name\":\"SettingBoilerEnable\",\"parameter\":\x7b\"identifier\":\"SteamBoiler\",\"state\":false\x7d\x7d") := by
      cases state <;> decide
    have hc' : c.is_connected = true := hc
    show (write_bluetooth_message env s SETTINGS_CHARACTERISTIC
        (Msg.str (dumps (command_of (UserCommand.steam state))))).trace = _
    have hf : ∀ t : String,
        framed_message SETTINGS_CHARACTERISTIC (Msg.str t) = utf8 t ++ [0] := by
      intro t; rw [framed_message, if_pos rfl]; rfl
    rw [hb, write_bluetooth_message]
    simp only [h, hf]
    split
    · split <;> rfl
    · contradiction

/-- Witness for C7 at the connected fixture session and `state = true`. -/
theorem C7_witness :
    connected client_conn = true ∧
    (set_steam env_ok client_conn true).trace =
      [Ev.write SETTINGS_CHARACTERISTIC
        (utf8 "\x7b\"name\":\"SettingBoilerEnable\",\"parameter\":\x7b\"identifier\":\"SteamBoiler\",\"state\":true\x7d\x7d"
          ++ [0])] :=
  ⟨rfl, C7_set_steam_payload env_ok client_conn true rfl⟩

/-- Every command dispatches to the generic byte writer on the settings
characteristic with its serialized command dict. -/
theorem run_command_eq (env : Env) (s : LaMarzoccoBluetoothClient) (cmd : UserCommand) :
    run_command env s cmd =
      write_bluetooth_message env s SETTINGS_CHARACTERISTIC (Msg.str (dumps (command_of cmd))) := by
  cases cmd <;> rfl

/-- The authentication payload depends only on the credentials, not on the
stored client handle. -/
theorem auth_string_set_client (s : LaMarzoccoBluetoothClient) (c : Option BleakClientState) :
    auth_string { s with client := c } = auth_string s := rfl

/-- Folding lemma for `auth_bytes`. -/
theorem auth_bytes_eq (s : LaMarzoccoBluetoothClient) :
    framed_message AUTH_CHARACTERISTIC (Msg.bytes (auth_string s)) = auth_bytes s := rfl

/-- Folding lemma for `command_bytes`. -/
theorem command_bytes_eq (cmd : UserCommand) :
    framed_message SETTINGS_CHARACTERISTIC (Msg.str (dumps (command_of cmd))) =
      command_bytes cmd := rfl

/-- Claim C1: a command issued on a session whose transport is not connected
performs exactly the transport calls connect, authentication write, command
write, in that order; on an already-connected transport, only the command
write. -/
theorem C1_connect_auth_command_order (env : Env) (s : LaMarzoccoBluetoothClient)
    (c : BleakClientState) (cmd : UserCommand)
    (hc : s.client = some c)
    (hok : (run_command env s cmd).error = none) :
    (run_command env s cmd).trace =
      if c.is_connected then [Ev.write SETTINGS_CHARACTERISTIC (command_bytes cmd)]
      else [Ev.connect, Ev.write AUTH_CHARACTERISTIC (auth_bytes s),
        Ev.write SETTINGS_CHARACTERISTIC (command_bytes cmd)] := by
  rw [run_command_eq] at hok ⊢
  rw [write_bluetooth_message] at hok ⊢
  simp only [hc, auth_string_set_client, auth_bytes_eq, command_bytes_eq] at hok ⊢
  cases hcc : c.is_connected with
  | false =>
    simp only [hcc] at hok ⊢
    simp only [Bool.false_eq_true, if_false] at hok ⊢
    cases he : env.connectErr with
    | some e =>
      simp only [he] at hok
      exact Option.noConfusion hok
    | none =>
      simp only [he] at hok ⊢
      cases ha : env.writeErr AUTH_CHARACTERISTIC (auth_bytes s) with
      | some e =>
        simp only [ha] at hok
        exact Option.noConfusion hok
      | none =>
        simp only [ha] at hok ⊢
        cases hw : env.writeErr SETTINGS_CHARACTERISTIC (command_bytes cmd) with
        | some e =>
          simp only [hw] at hok
          exact Option.noConfusion hok
        | none => simp only [hw]
  | true =>
    simp only [hcc, if_true] at hok ⊢
    cases hw : env.writeErr SETTINGS_CHARACTERISTIC (command_bytes cmd) with
    | some e =>
      simp only [hw] at hok
      exact Option.noConfusion hok
    | none => simp only [hw]

/-- Witness for C1: on the disconnected fixture session with an all-succeeding
transport, `set_power true` performs connect, auth write, command write. -/
theorem C1_witness :
    client_disc.client = some (⟨false⟩ : BleakClientState) ∧
    (run_command env_ok client_disc (UserCommand.power true)).error = none ∧
    (run_command env_ok client_disc (UserCommand.power true)).trace =
      [Ev.connect, Ev.write AUTH_CHARACTERISTIC (auth_bytes client_disc),
        Ev.write SETTINGS_CHARACTERISTIC (command_bytes (UserCommand.power true))] :=
  ⟨rfl, rfl,
    C1_connect_auth_command_order env_ok client_disc ⟨false⟩ (UserCommand.power true) rfl rfl⟩

/-- An environment whose transport connect always raises `TimeoutError`. -/
def env_conn_fail : Env := ⟨some TransportError.timeoutError, fun _ _ => none⟩

/-- An environment where connect succeeds but every write to the
authentication characteristic raises `BleakError`. -/
def env_auth_fail : Env :=
  ⟨none, fun ch _ => if ch = AUTH_CHARACTERISTIC then some TransportError.bleakError else none⟩

/-- Counterexample to claim C4 as stated: when the transport connect succeeds
and the authentication write then raises, the command raises
`ConnectionFailed` and no settings write is attempted — but the session does
NOT remain Disconnected: `connect()` succeeded and the client never
disconnects, so `connected` reports `true`. -/
theorem C4_counterexample :
    (set_power env_auth_fail client_disc true).error =
      some (LMError.connectionFailed TransportError.bleakError) ∧
    has_settings_write (set_power env_auth_fail client_disc true).trace = false ∧
    connected (set_power env_auth_fail client_disc true).session = true :=
  ⟨rfl, rfl, rfl⟩

/-- Claim C4 (amended): if the transport connect or the authentication write
raises during the connect-if-needed sequence of a command, the command raises
`ConnectionFailed` wrapping the cause and no settings write is attempted; the
session remains Disconnected when the transport connect itself failed (after
a successful connect with a failing authentication write, the transport link
may remain open, since the client never disconnects). -/
theorem C4_connect_failure (env : Env) (s : LaMarzoccoBluetoothClient)
    (c : BleakClientState) (cmd : UserCommand) (e : TransportError)
    (hc : s.client = some c) (hnc : c.is_connected = false) :
    (env.connectErr = some e →
      (run_command env s cmd).error = some (LMError.connectionFailed e) ∧
      has_settings_write (run_command env s cmd).trace = false ∧
      connected (run_command env s cmd).session = false) ∧
    (env.connectErr = none →
      env.writeErr AUTH_CHARACTERISTIC (auth_bytes s) = some e →
      (run_command env s cmd).error = some (LMError.connectionFailed e) ∧
      has_settings_write (run_command env s cmd).trace = false) := by
  constructor
  · intro he
    have hres : run_command env s cmd =
        ⟨s, some (LMError.connectionFailed e), [Ev.connect]⟩ := by
      rw [run_command_eq, write_bluetooth_message]
      simp only [hc, hnc, Bool.false_eq_true, if_false, he]
    rw [hres]
    refine ⟨rfl, rfl, ?_⟩
    show connected s = false
    rw [connected, hc]
    exact hnc
  · intro he ha
    have hres : run_command env s cmd =
        ⟨{ s with client := some ⟨true⟩ }, some (LMError.connectionFailed e),
          [Ev.connect, Ev.write AUTH_CHARACTERISTIC (auth_bytes s)]⟩ := by
      rw [run_command_eq, write_bluetooth_message]
      simp only [hc, hnc, Bool.false_eq_true, if_false, he,
        auth_string_set_client, auth_bytes_eq, ha]
    rw [hres]
    exact ⟨rfl, rfl⟩

/-- Witness for C4 (amended), connect-failure part, at the disconnected
fixture session. -/
theorem C4_witness :
    client_disc.client = some (⟨false⟩ : BleakClientState) ∧
    (⟨false⟩ : BleakClientState).is_connected = false ∧
    env_conn_fail.connectErr = some TransportError.timeoutError ∧
    ((run_command env_conn_fail client_disc (UserCommand.power true)).error =
        some (LMError.connectionFailed TransportError.timeoutError) ∧
      has_settings_write
        (run_command env_conn_fail client_disc (UserCommand.power true)).trace = false ∧
      connected
        (run_command env_conn_fail client_disc (UserCommand.power true)).session = false) :=
  ⟨rfl, rfl, rfl,
    (C4_connect_failure env_conn_fail client_disc ⟨false⟩ (UserCommand.power true)
      TransportError.timeoutError rfl rfl).1 rfl⟩

/-- A model-name set with the single supported prefix `"MICRA"`. -/
def model_names0 : List String := ["MICRA"]

/-- A scan result with two advertisers whose names both match. -/
def scan_two : List BLEDevice := [⟨some "MICRA_A", "AA:AA"⟩, ⟨some "MICRA_B", "BB:BB"⟩]

/-- Claim C5 (code bug): the claim and `create`'s own docstring ("selecting
the first one with a suppoted name") say discovery records the FIRST matching
advertiser, but `_discover_device`'s loop has no `break`, so every match
overwrites `self._address` and the LAST one wins.  On a scan with two matching
advertisers the session's address ends up `"BB:BB"`, while the first matching
advertiser in scan order is at `"AA:AA"`. -/
theorem C5_code_bug_eval :
    (discover_device model_names0 scan_two (mk_client "u" "s" "t" none)).address =
      some "BB:BB" ∧
    (scan_two.find? (matches_model_name model_names0)).map BLEDevice.address =
      some "AA:AA" := by
  constructor <;> rfl

/-- Discovery leaves the address untouched when no scanned device matches. -/
theorem discover_device_no_match (model_names : List String) :
    ∀ (devices : List BLEDevice) (s : LaMarzoccoBluetoothClient),
      (∀ d ∈ devices, matches_model_name model_names d = false) →
      discover_device model_names devices s = s := by
  intro devices
  induction devices with
  | nil => intro s _; rfl
  | cons d ds ih =>
    intro s h
    have hd : matches_model_name model_names d = false := h d (List.mem_cons_self d ds)
    have hds : ∀ x ∈ ds, matches_model_name model_names x = false :=
      fun x hx => h x (List.mem_cons_of_mem d hx)
    have step : discover_device model_names (d :: ds) s = discover_device model_names ds s := by
      simp only [discover_device, List.foldl_cons, hd, Bool.false_eq_true, if_false]
    rw [step]
    exact ih s hds

/-- Claim C6: when no scanned advertiser's name matches a supported model-name
prefix (unnamed advertisers included), the discovery-based constructor raises
`DeviceNotFound` and discovery leaves the session's address unset. -/
theorem C6_no_match_raises (model_names : List String) (devices : List BLEDevice)
    (username serial_number token : String) (init_client : Bool)
    (h : ∀ d ∈ devices, matches_model_name model_names d = false) :
    create model_names username serial_number token init_client devices =
      Except.error LMError.deviceNotFound ∧
    (discover_device model_names devices
        (mk_client username serial_number token none)).address = none := by
  have hd := discover_device_no_match model_names devices
    (mk_client username serial_number token none) h
  constructor
  · rw [create]
    simp only [hd]
    rfl
  · rw [hd]
    rfl

/-- A scan result with no matching advertiser: one unnamed, one empty-named,
one non-matching name. -/
def scan_nomatch : List BLEDevice := [⟨none, "XX"⟩, ⟨some "", "YY"⟩, ⟨some "Foo", "ZZ"⟩]

/-- Witness for C6 at a concrete matchless scan. -/
theorem C6_witness :
    (∀ d ∈ scan_nomatch, matches_model_name model_names0 d = false) ∧
    (create model_names0 "u" "s" "t" true scan_nomatch =
        Except.error LMError.deviceNotFound ∧
      (discover_device model_names0 scan_nomatch (mk_client "u" "s" "t" none)).address = none) :=
  ⟨by decide, C6_no_match_raises model_names0 scan_nomatch "u" "s" "t" true (by decide)⟩

/-- Claim C8: querying `address` on a session whose address was never
supplied raises `NotInitialized`; issuing any command on a session without a
client handle raises `NotInitialized` before any transport call (empty
trace). -/
theorem C8_not_initialized (env : Env) (s : LaMarzoccoBluetoothClient) (cmd : UserCommand) :
    (s.address = none → address_of s = Except.error LMError.notInitialized) ∧
    (s.client = none →
      (run_command env s cmd).error = some LMError.notInitialized ∧
      (run_command env s cmd).trace = []) := by
  constructor
  · intro ha
    rw [address_of, ha]
  · intro hcl
    have hres : run_command env s cmd = ⟨s, some LMError.notInitialized, []⟩ := by
      rw [run_command_eq, write_bluetooth_message]
      simp only [hcl]
    rw [hres]
    exact ⟨rfl, rfl⟩

/-- Witness for C8 at the bare fixture session. -/
theorem C8_witness :
    client_bare.address = none ∧ client_bare.client = none ∧
    address_of client_bare = Except.error LMError.notInitialized ∧
    (run_command env_ok client_bare (UserCommand.power true)).error =
      some LMError.notInitialized ∧
    (run_command env_ok client_bare (UserCommand.power true)).trace = [] :=
  ⟨rfl, rfl,
    (C8_not_initialized env_ok client_bare (UserCommand.power true)).1 rfl,
    ((C8_not_initialized env_ok client_bare (UserCommand.power true)).2 rfl).1,
    ((C8_not_initialized env_ok client_bare (UserCommand.power true)).2 rfl).2⟩

/-- The public operations a caller can issue on a constructed session:
command writes, the manual transport binding, and the two property reads
(pure reads that do not assign any field). -/
inductive PublicOp where
  | command (cmd : UserCommand)
  | bind_device (d : BLEDevice)
  | query_connected
  | query_address
  deriving DecidableEq

/-- The session state after one public operation. -/
def run_public_op (env : Env) (s : LaMarzoccoBluetoothClient) : PublicOp → LaMarzoccoBluetoothClient
  | PublicOp.command cmd => (run_command env s cmd).session
  | PublicOp.bind_device d => (new_client_from_ble_device env s d).session
  | PublicOp.query_connected => s
  | PublicOp.query_address => s

/-- The session state after a sequence of public operations. -/
def run_public_ops (env : Env) : List PublicOp → LaMarzoccoBluetoothClient → LaMarzoccoBluetoothClient
  | [], s => s
  | op :: ops, s => run_public_ops env ops (run_public_op env s op)

/-- The byte writer only ever returns the session unchanged or with a fresh
connected client handle stored. -/
theorem write_session_cases (env : Env) (s : LaMarzoccoBluetoothClient)
    (ch : String) (m : Msg) :
    (write_bluetooth_message env s ch m).session = s ∨
    (write_bluetooth_message env s ch m).session = { s with client := some ⟨true⟩ } := by
  simp only [write_bluetooth_message]
  split
  · exact Or.inl rfl
  · split
    · split
      · exact Or.inl rfl
      · exact Or.inl rfl
    · split
      · exact Or.inl rfl
      · split
        · exact Or.inr rfl
        · split
          · exact Or.inr rfl
          · exact Or.inr rfl

/-- The manual binding only ever stores a fresh client handle. -/
theorem bind_session_cases (env : Env) (s : LaMarzoccoBluetoothClient) (d : BLEDevice) :
    (new_client_from_ble_device env s d).session = { s with client := some ⟨false⟩ } ∨
    (new_client_from_ble_device env s d).session = { s with client := some ⟨true⟩ } := by
  simp only [new_client_from_ble_device]
  split
  · exact Or.inl rfl
  · split
    · exact Or.inr rfl
    · exact Or.inr rfl

/-- One public operation never changes the credentials or the address. -/
theorem run_public_op_preserves (env : Env) (s : LaMarzoccoBluetoothClient) (op : PublicOp) :
    (run_public_op env s op).username = s.username ∧
    (run_public_op env s op).serial_number = s.serial_number ∧
    (run_public_op env s op).token = s.token ∧
    (run_public_op env s op).address = s.address := by
  cases op with
  | command cmd =>
    simp only [run_public_op, run_command_eq]
    rcases write_session_cases env s SETTINGS_CHARACTERISTIC
        (Msg.str (dumps (command_of cmd))) with h | h <;>
      rw [h] <;> exact ⟨rfl, rfl, rfl, rfl⟩
  | bind_device d =>
    simp only [run_public_op]
    rcases bind_session_cases env s d with h | h <;>
      rw [h] <;> exact ⟨rfl, rfl, rfl, rfl⟩
  | query_connected => exact ⟨rfl, rfl, rfl, rfl⟩
  | query_address => exact ⟨rfl, rfl, rfl, rfl⟩

/-- Claim C9: over every sequence of public operations, the credentials
`username`, `serial_number` and `token` never change after construction, and
the `address` field is never assigned by a public operation — it is set at
most once, by discovery or by explicit construction. -/
theorem C9_credentials_address_immutable (env : Env) (s : LaMarzoccoBluetoothClient)
    (ops : List PublicOp) :
    (run_public_ops env ops s).username = s.username ∧
    (run_public_ops env ops s).serial_number = s.serial_number ∧
    (run_public_ops env ops s).token = s.token ∧
    (run_public_ops env ops s).address = s.address := by
  induction ops generalizing s with
  | nil => exact ⟨rfl, rfl, rfl, rfl⟩
  | cons op ops ih =>
    have h1 := run_public_op_preserves env s op
    have h2 := ih (run_public_op env s op)
    rw [run_public_ops]
    exact ⟨h2.1.trans h1.1, h2.2.1.trans h1.2.1, h2.2.2.1.trans h1.2.2.1,
      h2.2.2.2.trans h1.2.2.2⟩

/-- Claim C10: a successful manual transport binding replaces the client
handle and connects + authenticates, but leaves the `address` field exactly
as it was; on a session constructed without a device and without discovery,
the `address` query still raises `NotInitialized` afterwards, even while
`connected` reports `true`. -/
theorem C10_binding_leaves_address (env : Env) (s : LaMarzoccoBluetoothClient) (d : BLEDevice)
    (hconn : env.connectErr = none)
    (hauth : env.writeErr AUTH_CHARACTERISTIC (auth_bytes s) = none) :
    (new_client_from_ble_device env s d).session.address = s.address ∧
    (new_client_from_ble_device env s d).error = none ∧
    connected (new_client_from_ble_device env s d).session = true ∧
    (s.address = none →
      address_of (new_client_from_ble_device env s d).session =
        Except.error LMError.notInitialized) := by
  have hres : new_client_from_ble_device env s d =
      ⟨{ s with client := some ⟨true⟩ }, none,
        [Ev.connect, Ev.write AUTH_CHARACTERISTIC (auth_bytes s)]⟩ := by
    rw [new_client_from_ble_device]
    simp only [hconn, auth_string_set_client, auth_bytes_eq, hauth]
  rw [hres]
  refine ⟨rfl, rfl, rfl, ?_⟩
  intro ha
  show address_of { s with client := some ⟨true⟩ } = _
  rw [address_of]
  simp only [ha]

/-- A matching BLE advertiser fixture. -/
def device_a : BLEDevice := ⟨some "MICRA_A", "AA:AA"⟩

/-- Witness for C10: binding a device to the bare fixture session under an
all-succeeding transport connects and authenticates, yet the address query
still raises `NotInitialized`. -/
theorem C10_witness :
    env_ok.connectErr = none ∧
    env_ok.writeErr AUTH_CHARACTERISTIC (auth_bytes client_bare) = none ∧
    ((new_client_from_ble_device env_ok client_bare device_a).session.address =
        client_bare.address ∧
      (new_client_from_ble_device env_ok client_bare device_a).error = none ∧
      connected (new_client_from_ble_device env_ok client_bare device_a).session = true ∧
      (client_bare.address = none →
        address_of (new_client_from_ble_device env_ok client_bare device_a).session =
          Except.error LMError.notInitialized)) :=
  ⟨rfl, rfl, C10_binding_leaves_address env_ok client_bare device_a rfl rfl⟩

end LMBT
